import Mathlib

/-!
Verification of the MedWell backend (`src/server/server.js`).

The inline route handlers of `server.js` are embedded as pure Lean
functions.  A request body is an association list of string keys to
JSON-like values; the user collection is a list of such records and the
reminder collection a list of `Reminder` records.  The document-store
driver and the AI-vendor SDK are external collaborators: store failures
are injected through an explicit `Option String` argument carrying the
thrown error's message (`none` = the call succeeds), and the vendor is a
function argument from the outgoing request to either an error message
or an optional completion text.

The Mongoose model modules `./models/UserProfile` and `./models/Reminder`
are not part of the analysed sources; records are therefore kept
schema-free, storing field values exactly as supplied, in line with the
spec's description of profiles as an open attribute set and reminders as
flat `userId`/`title`/`dueDate`/`description` records.
-/

namespace MedWell

/-- JSON-like field values occurring in request bodies and stored
records: strings, numbers, and (for the symptom checker) arrays of
strings. -/
inductive Value where
  | vstr : String → Value
  | vnum : Int → Value
  | vlist : List String → Value
deriving DecidableEq

/-- JavaScript truthiness of a `Value`: the empty string and the number
zero are falsy; every array (even the empty one) is truthy. -/
def truthyV : Value → Bool
  | .vstr s => !s.isEmpty
  | .vnum n => n != 0
  | .vlist _ => true

/-- Truthiness of a possibly-absent value: `undefined` is falsy. -/
def truthyO : Option Value → Bool
  | none => false
  | some v => truthyV v

/-- Truthiness of a possibly-absent string (query parameters, chat
message): absent or empty is falsy. -/
def truthyS : Option String → Bool
  | none => false
  | some s => !s.isEmpty

/-- A schema-free document: an association list from field names to
values, first occurrence of a key winning on lookup. -/
abbrev Doc := List (String × Value)

/-- Field lookup in a document. -/
def getF : Doc → String → Option Value
  | [], _ => none
  | (k', v') :: t, k => if k' = k then some v' else getF t k

/-- Set a field: overwrite the first occurrence in place, or append the
field when the key is new (MongoDB `$set` on one field). -/
def setF : Doc → String → Value → Doc
  | [], k, v => [(k, v)]
  | (k', v') :: t, k, v => if k' = k then (k, v) :: t else (k', v') :: setF t k v

/-- Apply an update document field by field (MongoDB `$set`; Mongoose
wraps an operator-free update object in `$set`). -/
def applyUpd : Doc → Doc → Doc
  | r, [] => r
  | r, (k, v) :: t => applyUpd (setF r k v) t

/-- Does a stored record match the filter `\x7b userId \x7d`? -/
def matchesU (r : Doc) (v : Value) : Bool := decide (getF r "userId" = some v)

/-- Number of records of the user collection matching a given `userId`. -/
def countU (s : List Doc) (v : Value) : Nat := (s.filter (fun r => matchesU r v)).length

/-- `findOneAndUpdate(\x7b userId \x7d, upd, \x7b new: true, upsert: true \x7d)`:
update the first matching record in place, or append a fresh record
(the filter's `userId` plus the update) when none matches; returns the
resulting record together with the new collection state. -/
def upsertUser : List Doc → Value → Doc → Doc × List Doc
  | [], v, upd => (applyUpd [("userId", v)] upd, [applyUpd [("userId", v)] upd])
  | r :: t, v, upd =>
    if matchesU r v then (applyUpd r upd, applyUpd r upd :: t)
    else
      let p := upsertUser t v upd
      (p.1, r :: p.2)

/-- `findOneAndUpdate(\x7b userId \x7d, \x7b $set: body \x7d, \x7b new: true \x7d)` without
upsert: `none` when no record matches, otherwise the updated record and
the new collection state. -/
def updateUser : List Doc → Value → Doc → Option (Doc × List Doc)
  | [], _, _ => none
  | r :: t, v, upd =>
    if matchesU r v then some (applyUpd r upd, applyUpd r upd :: t)
    else
      match updateUser t v upd with
      | none => none
      | some p => some (p.1, r :: p.2)

/-- A stored reminder: `userId`, `title`, `dueDate`, optional
`description`, stored as supplied by the creating request. -/
structure Reminder where
  userId : Value
  title : Value
  dueDate : Value
  description : Option Value
deriving DecidableEq

/-- Lexicographic comparison of string lists (by the string order). -/
def listLe : List String → List String → Bool
  | [], _ => true
  | _ :: _, [] => false
  | a :: as, b :: bs => if a < b then true else if b < a then false else listLe as bs

/-- Total comparison of stored values, following the document store's
type bracketing (numbers sort before strings, strings before arrays),
used by `sort(\x7b dueDate: 1 \x7d)`. -/
def valLe : Value → Value → Bool
  | .vnum a, .vnum b => decide (a ≤ b)
  | .vnum _, .vstr _ => true
  | .vnum _, .vlist _ => true
  | .vstr _, .vnum _ => false
  | .vstr a, .vstr b => decide (a ≤ b)
  | .vstr _, .vlist _ => true
  | .vlist _, .vnum _ => false
  | .vlist _, .vstr _ => false
  | .vlist a, .vlist b => listLe a b

/-- Reminder ordering by non-decreasing due date. -/
def remLe (a b : Reminder) : Prop := valLe a.dueDate b.dueDate = true

instance : DecidableRel remLe := fun a b =>
  inferInstanceAs (Decidable (valLe a.dueDate b.dueDate = true))

/-- An HTTP response body: a JSON object, a serialized reminder, or an
array of serialized reminders. -/
inductive Body where
  | obj : Doc → Body
  | rem : Reminder → Body
  | rems : List Reminder → Body
deriving DecidableEq

/-- An HTTP response: status code and JSON body. -/
structure Response where
  status : Nat
  body : Body
deriving DecidableEq

/-- `res.json(\x7b message \x7d)`. -/
def msgBody (m : String) : Body := .obj [("message", .vstr m)]

/-- `res.json(\x7b message, error: err.message \x7d)`. -/
def errBody (m e : String) : Body := .obj [("message", .vstr m), ("error", .vstr e)]

/-- `GET /api/user/profile` (server.js lines 62-73): requires a truthy
`userId` query parameter, looks the record up, 404 when absent; the
catch block answers 500 with the fixed message `Server error` only. -/
def getProfile (store : List Doc) (q : Option String) (fail : Option String) :
    Response × List Doc :=
  match q with
  | none => (⟨400, msgBody "userId is required"⟩, store)
  | some u =>
    if u.isEmpty then (⟨400, msgBody "userId is required"⟩, store)
    else
      match fail with
      | some _ => (⟨500, msgBody "Server error"⟩, store)
      | none =>
        match store.find? (fun r => matchesU r (.vstr u)) with
        | none => (⟨404, msgBody "User not found"⟩, store)
        | some r => (⟨200, .obj r⟩, store)

/-- The extra body fields forwarded by `const \x7b userId, name, email,
...rest \x7d = req.body`. -/
def restFields (body : Doc) : Doc :=
  body.filter (fun p => !(p.1 == "userId" || p.1 == "name" || p.1 == "email"))

/-- `POST /api/user/profile` (server.js lines 76-91): requires truthy
`userId`, `name`, `email`; upserts `\x7b name, email, ...rest \x7d` keyed on
`userId` and answers 200 with the resulting record. -/
def postProfile (store : List Doc) (body : Doc) (fail : Option String) :
    Response × List Doc :=
  match getF body "userId", getF body "name", getF body "email" with
  | some v, some n, some e =>
    if truthyV v && truthyV n && truthyV e then
      match fail with
      | some msg => (⟨500, errBody "Server error" msg⟩, store)
      | none =>
        let p := upsertUser store v (("name", n) :: ("email", e) :: restFields body)
        (⟨200, .obj p.1⟩, p.2)
    else (⟨400, msgBody "userId, name, email required"⟩, store)
  | _, _, _ => (⟨400, msgBody "userId, name, email required"⟩, store)

/-- `PUT /api/user/profile` (server.js lines 94-109): requires a truthy
`userId` query parameter, `$set`s the whole body on the matching record,
404 when none matches. -/
def putProfile (store : List Doc) (q : Option String) (body : Doc) (fail : Option String) :
    Response × List Doc :=
  match q with
  | none => (⟨400, msgBody "userId is required"⟩, store)
  | some u =>
    if u.isEmpty then (⟨400, msgBody "userId is required"⟩, store)
    else
      match fail with
      | some msg => (⟨500, errBody "Server error" msg⟩, store)
      | none =>
        match updateUser store (.vstr u) body with
        | none => (⟨404, msgBody "User not found"⟩, store)
        | some p => (⟨200, .obj p.1⟩, p.2)

/-- `GET /api/reminders` (server.js lines 112-122): requires a truthy
`userId` query parameter and answers the matching reminders sorted by
ascending due date. -/
def getReminders (store : List Reminder) (q : Option String) (fail : Option String) :
    Response × List Reminder :=
  match q with
  | none => (⟨400, msgBody "userId is required"⟩, store)
  | some u =>
    if u.isEmpty then (⟨400, msgBody "userId is required"⟩, store)
    else
      match fail with
      | some msg => (⟨500, errBody "Server error" msg⟩, store)
      | none =>
        (⟨200, .rems (List.insertionSort remLe
          (store.filter (fun r => decide (r.userId = .vstr u))))⟩, store)

/-- The fields destructured from a `POST /api/reminders` body. -/
structure RemReq where
  userId : Option Value
  title : Option Value
  dueDate : Option Value
  description : Option Value

/-- `POST /api/reminders` (server.js lines 125-137): requires truthy
`userId`, `title`, `dueDate`; persists the new reminder and answers 201
with it. -/
def postReminder (store : List Reminder) (body : RemReq) (fail : Option String) :
    Response × List Reminder :=
  match body.userId, body.title, body.dueDate with
  | some u, some t, some d =>
    if truthyV u && truthyV t && truthyV d then
      match fail with
      | some msg => (⟨500, errBody "Server error" msg⟩, store)
      | none =>
        let r : Reminder := ⟨u, t, d, body.description⟩
        (⟨201, .rem r⟩, store ++ [r])
    else (⟨400, msgBody "userId, title, dueDate required"⟩, store)
  | _, _, _ => (⟨400, msgBody "userId, title, dueDate required"⟩, store)

/-- One message of an outgoing vendor chat-completion request. -/
structure VMsg where
  role : Option String
  content : Option String
deriving DecidableEq

/-- An outgoing `groq.chat.completions.create` request (the fixed
temperature 0.7 is recorded in tenths). -/
structure VendorReq where
  messages : List VMsg
  model : String
  temperatureTenths : Nat
  maxTokens : Nat
deriving DecidableEq

/-- The vendor SDK as a collaborator: an outgoing request yields either
a thrown error's message or `choices[0]?.message?.content`. -/
abbrev Vendor := VendorReq → Except String (Option String)

/-- `chatCompletion.choices[0]?.message?.content || fallback`. -/
def fallbackText (c : Option String) (fb : String) : String :=
  match c with
  | some s => if s.isEmpty then fb else s
  | none => fb

/-- The prompt built by the symptom checker:
`Given these symptoms: s1, s2, ..., list possible medical conditions and advice.` -/
def symptomPrompt (ss : List String) : String :=
  "Given these symptoms: " ++ String.intercalate ", " ss ++
    ", list possible medical conditions and advice."

/-- `POST /api/symptom-checker/identify` (server.js lines 140-159):
requires `symptoms` to be a non-empty array; otherwise 400 before any
vendor call.  Returns the response together with the vendor request
issued, if any. -/
def symptomHandler (body : Doc) (vendor : Vendor) : Response × Option VendorReq :=
  match getF body "symptoms" with
  | some (.vlist ss) =>
    if ss.isEmpty then (⟨400, msgBody "Symptoms array required"⟩, none)
    else
      let vreq : VendorReq :=
        ⟨[⟨some "user", some (symptomPrompt ss)⟩], "llama3-8b-8192", 7, 1024⟩
      match vendor vreq with
      | .error e => (⟨500, errBody "Symptom checker error" e⟩, some vreq)
      | .ok c => (⟨200, .obj [("result", .vstr (fallbackText c "No information found."))]⟩,
          some vreq)
  | _ => (⟨400, msgBody "Symptoms array required"⟩, none)

/-- One entry of the incoming `chatHistory`. -/
structure ChatMsg where
  role : Option String
  message : Option String
  content : Option String
deriving DecidableEq

/-- The fields destructured from a `POST /api/chat` body. -/
structure ChatReq where
  message : Option String
  chatHistory : Option (List ChatMsg)

/-- The fixed system instruction prepended to every chat completion. -/
def systemPrompt : String :=
  "You are a helpful health assistant. Provide general info, do not diagnose. Suggest users consult a doctor."

/-- `(m) => (\x7b role: m.role, content: m.message || m.content \x7d)`. -/
def histEntry (m : ChatMsg) : VMsg :=
  ⟨m.role, if truthyS m.message then m.message else m.content⟩

/-- `POST /api/chat` (server.js lines 162-189): requires a truthy
`message`; sends system instruction, mapped history, then the user
message to the vendor.  Returns the response together with the vendor
request issued, if any. -/
def chatHandler (req : ChatReq) (vendor : Vendor) : Response × Option VendorReq :=
  if !truthyS req.message then (⟨400, msgBody "Message is required"⟩, none)
  else
    let hist := req.chatHistory.getD []
    let vreq : VendorReq :=
      ⟨⟨some "system", some systemPrompt⟩ ::
        (hist.map histEntry ++ [⟨some "user", req.message⟩]),
        "llama3-8b-8192", 7, 512⟩
    match vendor vreq with
    | .error e => (⟨500, errBody "Chat error" e⟩, some vreq)
    | .ok c => (⟨200, .obj [("response", .vstr (fallbackText c "No response."))]⟩, some vreq)

/-- Does some field of an object body carry exactly the given string? -/
def bodyMentions (b : Body) (s : String) : Bool :=
  match b with
  | .obj fs => fs.any (fun p => p.2 == Value.vstr s)
  | _ => false

/-- The response body is an object carrying the given string in an
`error` field. -/
def hasErrField (r : Response) (e : String) : Prop :=
  ∃ fs, r.body = .obj fs ∧ ("error", Value.vstr e) ∈ fs

/-- A vendor that always answers a completion, for concrete test runs. -/
def demoVendor : Vendor := fun _ => Except.ok (some "ok")

/-- A concrete stored user record, for concrete test runs. -/
def demoUser : Doc := [("userId", .vstr "u"), ("name", .vstr "A"), ("email", .vstr "a@x")]

/-- A first concrete profile-creation body. -/
def demoBody1 : Doc :=
  [("userId", .vstr "u"), ("name", .vstr "A"), ("email", .vstr "a@x"), ("age", .vnum 30)]

/-- A second concrete profile-creation body with a different name. -/
def demoBody2 : Doc := [("userId", .vstr "u"), ("name", .vstr "B"), ("email", .vstr "b@x")]

/-- Concrete reminders, for concrete test runs. -/
def demoRem1 : Reminder := ⟨.vstr "u", .vstr "t1", .vnum 5, none⟩

def demoRem2 : Reminder := ⟨.vstr "u", .vstr "t2", .vnum 3, some (.vstr "d")⟩

def demoRem3 : Reminder := ⟨.vstr "w", .vstr "t3", .vnum 1, none⟩

theorem getF_setF_eq (r : Doc) (k : String) (v : Value) : getF (setF r k v) k = some v := by
  induction r with
  | nil => simp [setF, getF]
  | cons p t ih =>
    by_cases h : p.1 = k
    · simp [setF, h, getF]
    · simp [setF, h, getF, ih]

theorem getF_setF_ne (r : Doc) (k k' : String) (v : Value) (h : k' ≠ k) :
    getF (setF r k v) k' = getF r k' := by
  have h' : ¬k = k' := fun hh => h hh.symm
  induction r with
  | nil => simp [setF, getF, h']
  | cons p t ih =>
    obtain ⟨a, b⟩ := p
    by_cases hp : a = k
    · subst hp
      simp [setF, getF, h']
    · simp only [setF, hp, if_false, getF]
      by_cases hk : a = k'
      · simp [hk]
      · simp [hk, ih]

theorem getF_applyUpd_not_key (r : Doc) (upd : Doc) (k : String)
    (h : ∀ p ∈ upd, p.1 ≠ k) : getF (applyUpd r upd) k = getF r k := by
  induction upd generalizing r with
  | nil => rfl
  | cons p t ih =>
    have hp : p.1 ≠ k := h p (by simp)
    have ht : ∀ q ∈ t, q.1 ≠ k := fun q hq => h q (by simp [hq])
    calc getF (applyUpd (setF r p.1 p.2) t) k
        = getF (setF r p.1 p.2) k := ih _ ht
      _ = getF r k := getF_setF_ne r p.1 k p.2 (fun hh => hp hh.symm)

theorem getF_applyUpd_head (r : Doc) (rest : Doc) (k : String) (v : Value)
    (h : ∀ p ∈ rest, p.1 ≠ k) : getF (applyUpd r ((k, v) :: rest)) k = some v := by
  show getF (applyUpd (setF r k v) rest) k = some v
  rw [getF_applyUpd_not_key _ _ _ h, getF_setF_eq]

theorem getF_applyUpd_mem (r : Doc) (upd : Doc) (k : String) (v : Value)
    (hnd : (upd.map Prod.fst).Nodup) (hm : (k, v) ∈ upd) :
    getF (applyUpd r upd) k = some v := by
  induction upd generalizing r with
  | nil => cases hm
  | cons p t ih =>
    rcases List.mem_cons.mp hm with h | h
    · subst h
      refine getF_applyUpd_head r t k v ?_
      intro q hq hqk
      have : q.1 ∈ t.map Prod.fst := List.mem_map_of_mem Prod.fst hq
      rw [hqk] at this
      exact (List.nodup_cons.mp hnd).1 this
    · exact ih (setF r p.1 p.2) (List.nodup_cons.mp hnd).2 h

theorem matchesU_true_iff (r : Doc) (v : Value) :
    matchesU r v = true ↔ getF r "userId" = some v := by
  simp [matchesU]

theorem countU_cons (r : Doc) (t : List Doc) (v : Value) :
    countU (r :: t) v = (if matchesU r v then 1 else 0) + countU t v := by
  by_cases h : matchesU r v
  · simp [countU, List.filter, h, Nat.add_comm]
  · simp [countU, List.filter, h]

theorem countU_eq_zero {t : List Doc} {v : Value} (h : countU t v = 0) :
    ∀ x ∈ t, matchesU x v = false := by
  intro x hx
  by_contra hc
  have hmem : x ∈ t.filter (fun r => matchesU r v) :=
    List.mem_filter.mpr ⟨hx, by simpa using hc⟩
  have : t.filter (fun r => matchesU r v) = [] := List.length_eq_zero.mp h
  rw [this] at hmem
  cases hmem

theorem upsertUser_spec (s : List Doc) (v : Value) (upd : Doc)
    (hk : ∀ p ∈ upd, p.1 ≠ "userId") (hs : countU s v ≤ 1) :
    getF (upsertUser s v upd).1 "userId" = some v ∧
    countU (upsertUser s v upd).2 v = 1 ∧
    (upsertUser s v upd).1 ∈ (upsertUser s v upd).2 ∧
    (∀ x ∈ (upsertUser s v upd).2, matchesU x v = true → x = (upsertUser s v upd).1) ∧
    ∃ base, (upsertUser s v upd).1 = applyUpd base upd := by
  induction s with
  | nil =>
    simp only [upsertUser]
    have hg : getF (applyUpd [("userId", v)] upd) "userId" = some v := by
      rw [getF_applyUpd_not_key _ _ _ hk]
      simp [getF]
    have hmx : matchesU (applyUpd [("userId", v)] upd) v = true :=
      (matchesU_true_iff _ _).mpr hg
    refine ⟨hg, ?_, by simp, ?_, ⟨[("userId", v)], rfl⟩⟩
    · simp [countU, List.filter, hmx]
    · intro x hx _
      simpa using hx
  | cons r t ih =>
    by_cases hm : matchesU r v
    · have hg0 : getF r "userId" = some v := (matchesU_true_iff _ _).mp hm
      have hceq := countU_cons r t v
      rw [if_pos hm] at hceq
      have hct : countU t v = 0 := by omega
      have hg : getF (applyUpd r upd) "userId" = some v := by
        rw [getF_applyUpd_not_key _ _ _ hk]
        exact hg0
      have hmx : matchesU (applyUpd r upd) v = true := (matchesU_true_iff _ _).mpr hg
      simp only [upsertUser, hm, if_true]
      refine ⟨hg, ?_, by simp, ?_, ⟨r, rfl⟩⟩
      · rw [countU_cons, if_pos hmx, hct]
      · intro x hx hxm
        rcases List.mem_cons.mp hx with h | h
        · exact h
        · exact absurd hxm (by simp [countU_eq_zero hct x h])
    · have hceq := countU_cons r t v
      rw [if_neg hm, Nat.zero_add] at hceq
      have hs' : countU t v ≤ 1 := by rw [hceq] at hs; exact hs
      obtain ⟨ih1, ih2, ih3, ih4, ih5⟩ := ih hs'
      have hres : upsertUser (r :: t) v upd =
          ((upsertUser t v upd).1, r :: (upsertUser t v upd).2) := by
        simp only [upsertUser]
        rw [if_neg hm]
      rw [hres]
      refine ⟨ih1, ?_, List.mem_cons_of_mem _ ih3, ?_, ih5⟩
      · show countU (r :: (upsertUser t v upd).2) v = 1
        rw [countU_cons, if_neg hm, Nat.zero_add]
        exact ih2
      · intro x hx hxm
        rcases List.mem_cons.mp hx with h | h
        · rw [h] at hxm
          exact absurd hxm (by simp [hm])
        · exact ih4 x h hxm

theorem updateUser_eq_none {s : List Doc} {v : Value}
    (h : ∀ x ∈ s, matchesU x v = false) (upd : Doc) :
    updateUser s v upd = none := by
  induction s with
  | nil => rfl
  | cons r t ih =>
    have hr : matchesU r v = false := h r (by simp)
    have ht : ∀ x ∈ t, matchesU x v = false := fun x hx => h x (by simp [hx])
    simp [updateUser, hr, ih ht]

theorem updateUser_found {s : List Doc} {v : Value} {r : Doc}
    (h : s.find? (fun x => matchesU x v) = some r) (upd : Doc) :
    ∃ s', updateUser s v upd = some (applyUpd r upd, s') ∧ applyUpd r upd ∈ s' := by
  induction s with
  | nil => cases h
  | cons a t ih =>
    by_cases ha : matchesU a v
    · have har : a = r := by
        rw [List.find?_cons_of_pos (p := fun x => matchesU x v) _ ha] at h
        exact Option.some.inj h
      subst har
      exact ⟨applyUpd a upd :: t, by simp [updateUser, ha], by simp⟩
    · rw [List.find?_cons_of_neg (p := fun x => matchesU x v) _ (by simp [ha])] at h
      obtain ⟨s', h1, h2⟩ := ih h
      exact ⟨a :: s', by simp [updateUser, ha, h1], List.mem_cons_of_mem _ h2⟩

theorem restFields_keys {body : Doc} {p : String × Value} (hp : p ∈ restFields body) :
    p.1 ≠ "userId" ∧ p.1 ≠ "name" ∧ p.1 ≠ "email" := by
  have h := (List.mem_filter.mp hp).2
  simp at h
  exact and_assoc.mp h

theorem listLe_total : ∀ a b : List String, listLe a b = true ∨ listLe b a = true := by
  intro a
  induction a with
  | nil => intro b; exact Or.inl rfl
  | cons x xs ih =>
    intro b
    cases b with
    | nil => exact Or.inr rfl
    | cons y ys =>
      by_cases hxy : x < y
      · left
        simp [listLe, hxy]
      · by_cases hyx : y < x
        · right
          simp [listLe, hyx]
        · rcases ih ys with h | h
          · left
            simp [listLe, hxy, hyx, h]
          · right
            simp [listLe, hxy, hyx, h]

theorem listLe_trans :
    ∀ a b c : List String, listLe a b = true → listLe b c = true → listLe a c = true := by
  intro a
  induction a with
  | nil => intro b c _ _; rfl
  | cons x xs ih =>
    intro b c h1 h2
    cases b with
    | nil => simp [listLe] at h1
    | cons y ys =>
      cases c with
      | nil => simp [listLe] at h2
      | cons z zs =>
        simp only [listLe] at h1 h2 ⊢
        by_cases hxy : x < y
        · by_cases hyz : y < z
          · simp [lt_trans hxy hyz]
          · by_cases hzy : z < y
            · simp [hyz, hzy] at h2
            · have hyz' : y = z := le_antisymm (not_lt.mp hzy) (not_lt.mp hyz)
              subst hyz'
              simp [hxy]
        · by_cases hyx : y < x
          · simp [hxy, hyx] at h1
          · have hxy' : x = y := le_antisymm (not_lt.mp hyx) (not_lt.mp hxy)
            subst hxy'
            simp only [lt_irrefl, if_false] at h1
            by_cases hxz : x < z
            · simp [hxz]
            · by_cases hzx : z < x
              · simp [hxz, hzx] at h2
              · have hxz' : x = z := le_antisymm (not_lt.mp hzx) (not_lt.mp hxz)
                subst hxz'
                simp only [lt_irrefl, if_false] at h2 ⊢
                exact ih ys zs h1 h2

theorem valLe_total : ∀ a b : Value, valLe a b = true ∨ valLe b a = true := by
  intro a b
  cases a with
  | vnum x =>
    cases b with
    | vnum y => simpa [valLe] using Int.le_total x y
    | vstr _ => exact Or.inl rfl
    | vlist _ => exact Or.inl rfl
  | vstr x =>
    cases b with
    | vnum _ => exact Or.inr rfl
    | vstr y => simpa [valLe] using le_total x y
    | vlist _ => exact Or.inl rfl
  | vlist x =>
    cases b with
    | vnum _ => exact Or.inr rfl
    | vstr _ => exact Or.inr rfl
    | vlist y => exact listLe_total x y

theorem valLe_trans :
    ∀ a b c : Value, valLe a b = true → valLe b c = true → valLe a c = true
  | .vnum _, _, .vstr _, _, _ => rfl
  | .vnum _, _, .vlist _, _, _ => rfl
  | .vstr _, _, .vlist _, _, _ => rfl
  | .vnum a, .vnum b, .vnum c, h1, h2 => by
    simp only [valLe, decide_eq_true_eq] at h1 h2 ⊢
    omega
  | .vnum _, .vstr _, .vnum _, _, h2 => by simp [valLe] at h2
  | .vnum _, .vlist _, .vnum _, _, h2 => by simp [valLe] at h2
  | .vstr _, .vnum _, .vnum _, h1, _ => by simp [valLe] at h1
  | .vstr _, .vnum _, .vstr _, h1, _ => by simp [valLe] at h1
  | .vstr a, .vstr b, .vstr c, h1, h2 => by
    simp only [valLe, decide_eq_true_eq] at h1 h2 ⊢
    exact le_trans h1 h2
  | .vstr _, .vstr _, .vnum _, _, h2 => by simp [valLe] at h2
  | .vstr _, .vlist _, .vnum _, _, h2 => by simp [valLe] at h2
  | .vstr _, .vlist _, .vstr _, _, h2 => by simp [valLe] at h2
  | .vlist _, .vnum _, _, h1, _ => by simp [valLe] at h1
  | .vlist _, .vstr _, _, h1, _ => by simp [valLe] at h1
  | .vlist _, .vlist _, .vnum _, _, h2 => by simp [valLe] at h2
  | .vlist _, .vlist _, .vstr _, _, h2 => by simp [valLe] at h2
  | .vlist a, .vlist b, .vlist c, h1, h2 => listLe_trans a b c h1 h2

theorem truthyV_emptyStr : truthyV (.vstr "") = false := rfl

theorem truthyS_emptyStr : truthyS (some "") = false := rfl

/-- C7: a `POST /api/chat` request without `chatHistory` produces exactly
the same response and vendor request as the same request with
`chatHistory: []`, for every message and every vendor behaviour. -/
theorem chat_omitted_history_eq (m : Option String) (vendor : Vendor) :
    chatHandler ⟨m, none⟩ vendor = chatHandler ⟨m, some []⟩ vendor := rfl

/-- C6: `POST /api/symptom-checker/identify` answers 400 and issues no
vendor call whenever the `symptoms` field is not a list or is an empty
list, whatever else the body holds. -/
theorem symptom_invalid_400 (body : Doc) (vendor : Vendor)
    (h : (∀ ss, getF body "symptoms" ≠ some (.vlist ss)) ∨
      getF body "symptoms" = some (.vlist [])) :
    (symptomHandler body vendor).1.status = 400 ∧ (symptomHandler body vendor).2 = none := by
  rcases h with h | h
  · cases hx : getF body "symptoms" with
    | none => simp [symptomHandler, hx, msgBody]
    | some val =>
      cases val with
      | vstr s => simp [symptomHandler, hx, msgBody]
      | vnum n => simp [symptomHandler, hx, msgBody]
      | vlist ss => exact absurd hx (h ss)
  · simp [symptomHandler, h, msgBody]

theorem symptom_invalid_400_witness :
    ((symptomHandler [("symptoms", .vstr "cough")] demoVendor).1.status = 400 ∧
      (symptomHandler [("symptoms", .vstr "cough")] demoVendor).2 = none) ∧
    ((symptomHandler [("symptoms", .vlist []), ("other", .vnum 1)] demoVendor).1.status = 400 ∧
      (symptomHandler [("symptoms", .vlist []), ("other", .vnum 1)] demoVendor).2 = none) := by
  constructor
  · exact symptom_invalid_400 _ demoVendor (Or.inl (fun ss h => by simp [getF] at h))
  · exact symptom_invalid_400 _ demoVendor (Or.inr (by simp [getF]))

/-- C8: every write endpoint (profile create-or-replace, profile partial
update, reminder create) answers 400 and leaves its collection unchanged
whenever the supplied `userId` is absent or the empty string. -/
theorem writes_require_userId :
    (∀ (s : List Doc) (body : Doc) (fail : Option String),
      getF body "userId" = none ∨ getF body "userId" = some (.vstr "") →
      (postProfile s body fail).1.status = 400 ∧ (postProfile s body fail).2 = s) ∧
    (∀ (s : List Doc) (q : Option String) (body : Doc) (fail : Option String),
      q = none ∨ q = some "" →
      (putProfile s q body fail).1.status = 400 ∧ (putProfile s q body fail).2 = s) ∧
    (∀ (s : List Reminder) (body : RemReq) (fail : Option String),
      body.userId = none ∨ body.userId = some (.vstr "") →
      (postReminder s body fail).1.status = 400 ∧ (postReminder s body fail).2 = s) := by
  refine ⟨?_, ?_, ?_⟩
  · intro s body fail h
    rcases h with h | h <;>
      cases hn : getF body "name" <;> cases he : getF body "email" <;>
        simp [postProfile, h, hn, he, truthyV_emptyStr, msgBody]
  · intro s q body fail h
    rcases h with rfl | rfl <;> exact ⟨rfl, rfl⟩
  · intro s body fail h
    rcases h with h | h <;>
      cases hn : body.title <;> cases he : body.dueDate <;>
        simp [postReminder, h, hn, he, truthyV_emptyStr, msgBody]

theorem writes_require_userId_witness :
    ((postProfile [demoUser] [("name", .vstr "A"), ("email", .vstr "a@x")] none).1.status = 400 ∧
      (postProfile [demoUser] [("name", .vstr "A"), ("email", .vstr "a@x")] none).2 = [demoUser]) ∧
    ((putProfile [demoUser] (some "") [("name", .vstr "B")] none).1.status = 400 ∧
      (putProfile [demoUser] (some "") [("name", .vstr "B")] none).2 = [demoUser]) ∧
    ((postReminder [demoRem1] ⟨some (.vstr ""), some (.vstr "t"), some (.vnum 1), none⟩ none).1.status = 400 ∧
      (postReminder [demoRem1] ⟨some (.vstr ""), some (.vstr "t"), some (.vnum 1), none⟩ none).2 = [demoRem1]) := by
  refine ⟨?_, ?_, ?_⟩
  · exact writes_require_userId.1 [demoUser] _ none (Or.inl rfl)
  · exact writes_require_userId.2.1 [demoUser] (some "") _ none (Or.inr rfl)
  · exact writes_require_userId.2.2 [demoRem1] _ none (Or.inr rfl)

/-- C9: a present-but-empty required string behaves like an absent one:
`POST /api/user/profile` answers 400 and leaves the store unchanged when
`name` or `email` is the empty string, and `POST /api/chat` answers 400
and issues no vendor call when `message` is the empty string. -/
theorem emptyString_as_absent :
    (∀ (s : List Doc) (body : Doc) (fail : Option String),
      getF body "name" = some (.vstr "") ∨ getF body "email" = some (.vstr "") →
      (postProfile s body fail).1.status = 400 ∧ (postProfile s body fail).2 = s) ∧
    (∀ (req : ChatReq) (vendor : Vendor), req.message = some "" →
      (chatHandler req vendor).1.status = 400 ∧ (chatHandler req vendor).2 = none) := by
  constructor
  · intro s body fail h
    rcases h with h | h
    · cases hu : getF body "userId" <;> cases he : getF body "email" <;>
        simp [postProfile, h, hu, he, truthyV_emptyStr, msgBody]
    · cases hu : getF body "userId" <;> cases hn : getF body "name" <;>
        simp [postProfile, h, hu, hn, truthyV_emptyStr, msgBody]
  · intro req vendor h
    obtain ⟨m, hist⟩ := req
    have hm : m = some "" := h
    subst hm
    exact ⟨rfl, rfl⟩

theorem emptyString_as_absent_witness :
    ((postProfile [] [("userId", .vstr "u"), ("name", .vstr ""), ("email", .vstr "a@x")] none).1.status = 400 ∧
      (postProfile [] [("userId", .vstr "u"), ("name", .vstr ""), ("email", .vstr "a@x")] none).2 = []) ∧
    ((chatHandler ⟨some "", some [⟨some "user", some "hello", none⟩]⟩ demoVendor).1.status = 400 ∧
      (chatHandler ⟨some "", some [⟨some "user", some "hello", none⟩]⟩ demoVendor).2 = none) := by
  constructor
  · exact emptyString_as_absent.1 [] _ none (Or.inl rfl)
  · exact emptyString_as_absent.2 _ demoVendor rfl

/-- C4, counterexample to the claim as stated: with a present-but-empty
`userId` query parameter (`?userId=`) and no matching record, the claim
requires 404, but the handler answers 400, because `!userId` also
rejects the empty string. -/
theorem getProfile_emptyQuery_counterexample :
    (some "" : Option String) ≠ none ∧
    ([] : List Doc).find? (fun r => matchesU r (.vstr "")) = none ∧
    (getProfile [] (some "") none).1.status = 400 ∧
    ¬(getProfile [] (some "") none).1.status = 404 := by decide

/-- C4, amended: `GET /api/user/profile` answers 400 when the `userId`
query parameter is absent or empty (for any store outcome), 404 with the
store unchanged when it is present, non-empty and unmatched, and 200
with the stored record verbatim (store unchanged) when a record
matches. -/
theorem getProfile_spec (s : List Doc) (q : Option String) :
    ((q = none ∨ q = some "") → ∀ fail,
      (getProfile s q fail).1.status = 400 ∧ (getProfile s q fail).2 = s) ∧
    (∀ u, q = some u → u.isEmpty = false →
      s.find? (fun r => matchesU r (.vstr u)) = none →
      (getProfile s q none).1.status = 404 ∧ (getProfile s q none).2 = s) ∧
    (∀ u r, q = some u → u.isEmpty = false →
      s.find? (fun r => matchesU r (.vstr u)) = some r →
      (getProfile s q none).1 = ⟨200, .obj r⟩ ∧ r ∈ s ∧
        getF r "userId" = some (.vstr u) ∧ (getProfile s q none).2 = s) := by
  refine ⟨?_, ?_, ?_⟩
  · rintro (rfl | rfl) fail <;> exact ⟨rfl, rfl⟩
  · rintro u rfl hu hf
    simp [getProfile, hu, hf, msgBody]
  · rintro u r rfl hu hf
    have hm : matchesU r (.vstr u) = true := by
      have h := List.find?_some hf
      simpa using h
    refine ⟨?_, List.mem_of_find?_eq_some hf, (matchesU_true_iff _ _).mp hm, ?_⟩
    · simp [getProfile, hu, hf]
    · simp [getProfile, hu, hf]

theorem getProfile_spec_witness :
    ((getProfile [demoUser] none (some "boom")).1.status = 400 ∧
      (getProfile [demoUser] none (some "boom")).2 = [demoUser]) ∧
    ((getProfile [demoUser] (some "z") none).1.status = 404 ∧
      (getProfile [demoUser] (some "z") none).2 = [demoUser]) ∧
    ((getProfile [demoUser] (some "u") none).1 = ⟨200, .obj demoUser⟩ ∧
      demoUser ∈ [demoUser] ∧ getF demoUser "userId" = some (.vstr "u") ∧
      (getProfile [demoUser] (some "u") none).2 = [demoUser]) := by
  refine ⟨?_, ?_, ?_⟩
  · exact (getProfile_spec [demoUser] none).1 (Or.inl rfl) (some "boom")
  · exact (getProfile_spec [demoUser] (some "z")).2.1 "z" rfl rfl (by decide)
  · exact (getProfile_spec [demoUser] (some "u")).2.2 "u" demoUser rfl rfl (by decide)

/-- C5, counterexample to the claim as stated: with a present-but-empty
`userId` query parameter and no matching record, the claim requires 404,
but the handler answers 400. -/
theorem putProfile_emptyQuery_counterexample :
    (some "" : Option String) ≠ none ∧
    ([] : List Doc).find? (fun r => matchesU r (.vstr "")) = none ∧
    (putProfile [] (some "") [] none).1.status = 400 ∧
    ¬(putProfile [] (some "") [] none).1.status = 404 := by decide

/-- C5, amended: `PUT /api/user/profile` answers 400 when the `userId`
query parameter is absent or empty, 404 with the store unchanged when it
is present, non-empty and unmatched; otherwise the body's fields are
merged into the matched record (fields not named in the body keep their
previous values) and the handler answers 200 with the updated record,
which is in the new store. -/
theorem putProfile_spec (s : List Doc) (q : Option String) (body : Doc) :
    ((q = none ∨ q = some "") → ∀ fail,
      (putProfile s q body fail).1.status = 400 ∧ (putProfile s q body fail).2 = s) ∧
    (∀ u, q = some u → u.isEmpty = false →
      (∀ x ∈ s, matchesU x (.vstr u) = false) →
      (putProfile s q body none).1.status = 404 ∧ (putProfile s q body none).2 = s) ∧
    (∀ u r, q = some u → u.isEmpty = false →
      s.find? (fun x => matchesU x (.vstr u)) = some r →
      (body.map Prod.fst).Nodup →
      ∃ r', (putProfile s q body none).1 = ⟨200, .obj r'⟩ ∧
        r' ∈ (putProfile s q body none).2 ∧
        (∀ k v, (k, v) ∈ body → getF r' k = some v) ∧
        (∀ k, (∀ v, (k, v) ∉ body) → getF r' k = getF r k)) := by
  refine ⟨?_, ?_, ?_⟩
  · rintro (rfl | rfl) fail <;> exact ⟨rfl, rfl⟩
  · rintro u rfl hu hnone
    simp [putProfile, hu, updateUser_eq_none hnone, msgBody]
  · rintro u r rfl hu hf hnd
    obtain ⟨s', hupd, hmem⟩ := updateUser_found hf body
    refine ⟨applyUpd r body, ?_, ?_, ?_, ?_⟩
    · simp [putProfile, hu, hupd]
    · simpa [putProfile, hu, hupd] using hmem
    · intro k v hkv
      exact getF_applyUpd_mem r body k v hnd hkv
    · intro k hk
      refine getF_applyUpd_not_key r body k ?_
      intro p hp hpk
      have hk2 : (k, p.2) ∈ body := by
        rw [← hpk]
        simpa using hp
      exact hk p.2 hk2

theorem putProfile_spec_witness :
    ((putProfile [demoUser] none [("name", .vstr "B")] (some "boom")).1.status = 400 ∧
      (putProfile [demoUser] none [("name", .vstr "B")] (some "boom")).2 = [demoUser]) ∧
    ((putProfile [demoUser] (some "z") [("name", .vstr "B")] none).1.status = 404 ∧
      (putProfile [demoUser] (some "z") [("name", .vstr "B")] none).2 = [demoUser]) ∧
    (∃ r', (putProfile [demoUser] (some "u") [("name", .vstr "B")] none).1 = ⟨200, .obj r'⟩ ∧
      r' ∈ (putProfile [demoUser] (some "u") [("name", .vstr "B")] none).2 ∧
      (∀ k v, (k, v) ∈ [("name", Value.vstr "B")] → getF r' k = some v) ∧
      (∀ k, (∀ v, (k, v) ∉ [("name", Value.vstr "B")]) → getF r' k = getF demoUser k)) := by
  refine ⟨?_, ?_, ?_⟩
  · exact (putProfile_spec [demoUser] none [("name", .vstr "B")]).1 (Or.inl rfl) (some "boom")
  · exact (putProfile_spec [demoUser] (some "z") [("name", .vstr "B")]).2.1 "z" rfl rfl
      (by decide)
  · exact (putProfile_spec [demoUser] (some "u") [("name", .vstr "B")]).2.2 "u" demoUser rfl
      rfl (by decide) (by decide)

/-- C2: for every store state and every non-empty `userId`,
`GET /api/reminders` answers 200 with a permutation of exactly the
reminders whose `userId` equals the given one, ordered by non-decreasing
due date, and leaves the store unchanged. -/
theorem getReminders_sorted (store : List Reminder) (u : String) (hu : u.isEmpty = false) :
    ∃ l, getReminders store (some u) none = (⟨200, .rems l⟩, store) ∧
      List.Perm l (store.filter (fun r => decide (r.userId = .vstr u))) ∧
      List.Sorted remLe l := by
  refine ⟨List.insertionSort remLe (store.filter (fun r => decide (r.userId = .vstr u))),
    ?_, ?_, ?_⟩
  · simp [getReminders, hu]
  · exact List.perm_insertionSort remLe _
  · haveI : IsTotal Reminder remLe := ⟨fun a b => valLe_total a.dueDate b.dueDate⟩
    haveI : IsTrans Reminder remLe := ⟨fun a b c h1 h2 => valLe_trans _ _ _ h1 h2⟩
    exact List.sorted_insertionSort remLe _

theorem getReminders_sorted_witness :
    ∃ l, getReminders [demoRem1, demoRem2, demoRem3] (some "u") none =
        (⟨200, .rems l⟩, [demoRem1, demoRem2, demoRem3]) ∧
      List.Perm l ([demoRem1, demoRem2, demoRem3].filter
        (fun r => decide (r.userId = .vstr "u"))) ∧
      List.Sorted remLe l :=
  getReminders_sorted [demoRem1, demoRem2, demoRem3] "u" rfl

/-- C3, counterexample to the claim as stated: when the `findOne` of
`GET /api/user/profile` throws with message `boom`, the handler answers
500 but no field of the body carries the underlying message — its catch
block sends the fixed `\x7b message: 'Server error' \x7d` only. -/
theorem getProfile_error_counterexample :
    (getProfile [] (some "u") (some "boom")).1.status = 500 ∧
    bodyMentions (getProfile [] (some "u") (some "boom")).1.body "boom" = false := by decide

/-- C3, amended: on an unexpected store or vendor failure with message
`e` (validation having passed), every handler except
`GET /api/user/profile` answers 500 with the underlying message in an
`error` field of the body; `GET /api/user/profile` answers 500 with the
fixed, non-empty message `Server error`, omitting the underlying one. -/
theorem serverError_500 (e : String) (he : e ≠ "") :
    (∀ (s : List Doc) (u : String), u.isEmpty = false →
      (getProfile s (some u) (some e)).1 = ⟨500, msgBody "Server error"⟩ ∧
        "Server error" ≠ "") ∧
    (∀ (s : List Doc) (body : Doc) (v n em : Value),
      getF body "userId" = some v → getF body "name" = some n →
      getF body "email" = some em →
      truthyV v = true → truthyV n = true → truthyV em = true →
      (postProfile s body (some e)).1.status = 500 ∧
        hasErrField (postProfile s body (some e)).1 e) ∧
    (∀ (s : List Doc) (u : String) (body : Doc), u.isEmpty = false →
      (putProfile s (some u) body (some e)).1.status = 500 ∧
        hasErrField (putProfile s (some u) body (some e)).1 e) ∧
    (∀ (s : List Reminder) (u : String), u.isEmpty = false →
      (getReminders s (some u) (some e)).1.status = 500 ∧
        hasErrField (getReminders s (some u) (some e)).1 e) ∧
    (∀ (s : List Reminder) (body : RemReq) (u t d : Value),
      body.userId = some u → body.title = some t → body.dueDate = some d →
      truthyV u = true → truthyV t = true → truthyV d = true →
      (postReminder s body (some e)).1.status = 500 ∧
        hasErrField (postReminder s body (some e)).1 e) ∧
    (∀ (body : Doc) (ss : List String),
      getF body "symptoms" = some (.vlist ss) → ss.isEmpty = false →
      (symptomHandler body (fun _ => Except.error e)).1.status = 500 ∧
        hasErrField (symptomHandler body (fun _ => Except.error e)).1 e) ∧
    (∀ (req : ChatReq) (m : String), req.message = some m → m.isEmpty = false →
      (chatHandler req (fun _ => Except.error e)).1.status = 500 ∧
        hasErrField (chatHandler req (fun _ => Except.error e)).1 e) := by
  refine ⟨?_, ?_, ?_, ?_, ?_, ?_, ?_⟩
  · intro s u hu
    refine ⟨?_, by decide⟩
    simp [getProfile, hu]
  · intro s body v n em hv hn hem htv htn htem
    constructor
    · simp [postProfile, hv, hn, hem, htv, htn, htem]
    · refine ⟨[("message", .vstr "Server error"), ("error", .vstr e)], ?_, by simp⟩
      simp [postProfile, hv, hn, hem, htv, htn, htem, errBody]
  · intro s u body hu
    constructor
    · simp [putProfile, hu]
    · refine ⟨[("message", .vstr "Server error"), ("error", .vstr e)], ?_, by simp⟩
      simp [putProfile, hu, errBody]
  · intro s u hu
    constructor
    · simp [getReminders, hu]
    · refine ⟨[("message", .vstr "Server error"), ("error", .vstr e)], ?_, by simp⟩
      simp [getReminders, hu, errBody]
  · intro s body u t d hu ht hd htu htt htd
    constructor
    · simp [postReminder, hu, ht, hd, htu, htt, htd]
    · refine ⟨[("message", .vstr "Server error"), ("error", .vstr e)], ?_, by simp⟩
      simp [postReminder, hu, ht, hd, htu, htt, htd, errBody]
  · intro body ss hss hne
    constructor
    · simp [symptomHandler, hss, hne]
    · refine ⟨[("message", .vstr "Symptom checker error"), ("error", .vstr e)], ?_, by simp⟩
      simp [symptomHandler, hss, hne, errBody]
  · intro req m hm hne
    obtain ⟨mm, hist⟩ := req
    have hmm : mm = some m := hm
    subst hmm
    have htr : truthyS (some m) = true := by simp [truthyS, hne]
    constructor
    · simp [chatHandler, htr]
    · refine ⟨[("message", .vstr "Chat error"), ("error", .vstr e)], ?_, by simp⟩
      simp [chatHandler, htr, errBody]

theorem serverError_500_witness :
    ((getProfile [demoUser] (some "u") (some "boom")).1 =
        ⟨500, msgBody "Server error"⟩ ∧ "Server error" ≠ "") ∧
    ((postProfile [] demoBody1 (some "boom")).1.status = 500 ∧
      hasErrField (postProfile [] demoBody1 (some "boom")).1 "boom") ∧
    ((putProfile [demoUser] (some "u") [("name", .vstr "B")] (some "boom")).1.status = 500 ∧
      hasErrField (putProfile [demoUser] (some "u") [("name", .vstr "B")] (some "boom")).1 "boom") ∧
    ((getReminders [demoRem1] (some "u") (some "boom")).1.status = 500 ∧
      hasErrField (getReminders [demoRem1] (some "u") (some "boom")).1 "boom") ∧
    ((postReminder [] ⟨some (.vstr "u"), some (.vstr "t"), some (.vnum 1), none⟩ (some "boom")).1.status = 500 ∧
      hasErrField (postReminder [] ⟨some (.vstr "u"), some (.vstr "t"), some (.vnum 1), none⟩ (some "boom")).1 "boom") ∧
    ((symptomHandler [("symptoms", .vlist ["cough"])] (fun _ => Except.error "boom")).1.status = 500 ∧
      hasErrField (symptomHandler [("symptoms", .vlist ["cough"])] (fun _ => Except.error "boom")).1 "boom") ∧
    ((chatHandler ⟨some "hi", none⟩ (fun _ => Except.error "boom")).1.status = 500 ∧
      hasErrField (chatHandler ⟨some "hi", none⟩ (fun _ => Except.error "boom")).1 "boom") := by
  have h := serverError_500 "boom" (by decide)
  refine ⟨h.1 [demoUser] "u" rfl, ?_, h.2.2.1 [demoUser] "u" _ rfl,
    h.2.2.2.1 [demoRem1] "u" rfl, ?_, ?_, ?_⟩
  · exact h.2.1 [] demoBody1 (.vstr "u") (.vstr "A") (.vstr "a@x") rfl rfl rfl rfl rfl rfl
  · exact h.2.2.2.2.1 [] _ (.vstr "u") (.vstr "t") (.vnum 1) rfl rfl rfl rfl rfl rfl
  · exact h.2.2.2.2.2.1 _ ["cough"] rfl rfl
  · exact h.2.2.2.2.2.2 _ "hi" rfl rfl

/-- C1: posting two profiles with the same (truthy) `userId` into a
store holding at most one record for it leaves exactly one record for
that `userId`; the second response is 200, its body is that record, and
the record's `name` is the second post's `name`. -/
theorem postProfile_upsert_latest
    (s : List Doc) (b1 b2 : Doc) (v n1 e1 n2 e2 : Value)
    (hc : countU s v ≤ 1)
    (h1u : getF b1 "userId" = some v) (h1n : getF b1 "name" = some n1)
    (h1e : getF b1 "email" = some e1)
    (h2u : getF b2 "userId" = some v) (h2n : getF b2 "name" = some n2)
    (h2e : getF b2 "email" = some e2)
    (htv : truthyV v = true) (ht1n : truthyV n1 = true) (ht1e : truthyV e1 = true)
    (ht2n : truthyV n2 = true) (ht2e : truthyV e2 = true) :
    (postProfile (postProfile s b1 none).2 b2 none).1.status = 200 ∧
    ∃ r, (postProfile (postProfile s b1 none).2 b2 none).1.body = .obj r ∧
      countU (postProfile (postProfile s b1 none).2 b2 none).2 v = 1 ∧
      r ∈ (postProfile (postProfile s b1 none).2 b2 none).2 ∧
      (∀ x ∈ (postProfile (postProfile s b1 none).2 b2 none).2,
        matchesU x v = true → x = r) ∧
      getF r "name" = some n2 := by
  have hk1 : ∀ p ∈ ("name", n1) :: ("email", e1) :: restFields b1, p.1 ≠ "userId" := by
    intro p hp
    rcases List.mem_cons.mp hp with rfl | hp'
    · simp
    · rcases List.mem_cons.mp hp' with rfl | hp''
      · simp
      · exact (restFields_keys hp'').1
  have hk2 : ∀ p ∈ ("name", n2) :: ("email", e2) :: restFields b2, p.1 ≠ "userId" := by
    intro p hp
    rcases List.mem_cons.mp hp with rfl | hp'
    · simp
    · rcases List.mem_cons.mp hp' with rfl | hp''
      · simp
      · exact (restFields_keys hp'').1
  have hpost1 : postProfile s b1 none =
      (⟨200, .obj (upsertUser s v (("name", n1) :: ("email", e1) :: restFields b1)).1⟩,
        (upsertUser s v (("name", n1) :: ("email", e1) :: restFields b1)).2) := by
    simp [postProfile, h1u, h1n, h1e, htv, ht1n, ht1e]
  have hstep : (postProfile s b1 none).2 =
      (upsertUser s v (("name", n1) :: ("email", e1) :: restFields b1)).2 := by
    rw [hpost1]
  obtain ⟨g1, c1, m1, u1, base1⟩ :=
    upsertUser_spec s v (("name", n1) :: ("email", e1) :: restFields b1) hk1 hc
  obtain ⟨g2, c2, m2, u2, base2⟩ :=
    upsertUser_spec (upsertUser s v (("name", n1) :: ("email", e1) :: restFields b1)).2 v
      (("name", n2) :: ("email", e2) :: restFields b2) hk2 (le_of_eq c1)
  have hpost2 : postProfile
      (upsertUser s v (("name", n1) :: ("email", e1) :: restFields b1)).2 b2 none =
      (⟨200, .obj (upsertUser
          (upsertUser s v (("name", n1) :: ("email", e1) :: restFields b1)).2 v
          (("name", n2) :: ("email", e2) :: restFields b2)).1⟩,
        (upsertUser (upsertUser s v (("name", n1) :: ("email", e1) :: restFields b1)).2 v
          (("name", n2) :: ("email", e2) :: restFields b2)).2) := by
    simp [postProfile, h2u, h2n, h2e, htv, ht2n, ht2e]
  rw [hstep, hpost2]
  refine ⟨rfl, (upsertUser
      (upsertUser s v (("name", n1) :: ("email", e1) :: restFields b1)).2 v
      (("name", n2) :: ("email", e2) :: restFields b2)).1, rfl, c2, m2, u2, ?_⟩
  obtain ⟨base, hb⟩ := base2
  rw [hb]
  refine getF_applyUpd_head base _ "name" n2 ?_
  intro p hp
  rcases List.mem_cons.mp hp with rfl | hp'
  · simp
  · exact (restFields_keys hp').2.1

theorem postProfile_upsert_latest_witness :
    (postProfile (postProfile [] demoBody1 none).2 demoBody2 none).1.status = 200 ∧
    ∃ r, (postProfile (postProfile [] demoBody1 none).2 demoBody2 none).1.body = .obj r ∧
      countU (postProfile (postProfile [] demoBody1 none).2 demoBody2 none).2 (.vstr "u") = 1 ∧
      r ∈ (postProfile (postProfile [] demoBody1 none).2 demoBody2 none).2 ∧
      (∀ x ∈ (postProfile (postProfile [] demoBody1 none).2 demoBody2 none).2,
        matchesU x (.vstr "u") = true → x = r) ∧
      getF r "name" = some (.vstr "B") :=
  postProfile_upsert_latest [] demoBody1 demoBody2 (.vstr "u") (.vstr "A") (.vstr "a@x")
    (.vstr "B") (.vstr "b@x") (by decide) rfl rfl rfl rfl rfl rfl rfl rfl rfl rfl rfl

/-- C10: for each `chatHistory` entry, the content forwarded to the
vendor at the corresponding position is the entry's `message` field when
that one is a non-empty string, and its `content` field otherwise
(`m.message || m.content`), so an entry carrying both fields contributes
`message`. -/
theorem chat_history_content (m : String) (hm : m.isEmpty = false)
    (hist : List ChatMsg) (vendor : Vendor) :
    ∃ vreq, (chatHandler ⟨some m, some hist⟩ vendor).2 = some vreq ∧
      vreq.messages.length = hist.length + 2 ∧
      ∀ i (hi : i + 1 < vreq.messages.length) (hj : i < hist.length),
        (vreq.messages.get ⟨i + 1, hi⟩).content =
          (if truthyS (hist.get ⟨i, hj⟩).message then (hist.get ⟨i, hj⟩).message
           else (hist.get ⟨i, hj⟩).content) := by
  have htr : truthyS (some m) = true := by simp [truthyS, hm]
  refine ⟨⟨⟨some "system", some systemPrompt⟩ ::
      (hist.map histEntry ++ [⟨some "user", some m⟩]), "llama3-8b-8192", 7, 512⟩,
    ?_, by simp, ?_⟩
  · rcases hv : vendor ⟨⟨some "system", some systemPrompt⟩ ::
        (hist.map histEntry ++ [⟨some "user", some m⟩]), "llama3-8b-8192", 7, 512⟩ with e | c
    · simp [chatHandler, htr, hv]
    · simp [chatHandler, htr, hv]
  · intro i hi hj
    simp only [List.get_eq_getElem, List.getElem_cons_succ]
    rw [List.getElem_append_left (by simpa using hj)]
    simp [histEntry]

theorem chat_history_content_witness :
    ∃ vreq, (chatHandler ⟨some "hi",
        some [⟨some "user", some "both-msg", some "both-content"⟩,
          ⟨some "assistant", none, some "only-content"⟩]⟩ demoVendor).2 = some vreq ∧
      vreq.messages.length = [⟨some "user", some "both-msg", some "both-content"⟩,
          (⟨some "assistant", none, some "only-content"⟩ : ChatMsg)].length + 2 ∧
      ∀ i (hi : i + 1 < vreq.messages.length)
        (hj : i < [⟨some "user", some "both-msg", some "both-content"⟩,
          (⟨some "assistant", none, some "only-content"⟩ : ChatMsg)].length),
        (vreq.messages.get ⟨i + 1, hi⟩).content =
          (if truthyS ([⟨some "user", some "both-msg", some "both-content"⟩,
              (⟨some "assistant", none, some "only-content"⟩ : ChatMsg)].get ⟨i, hj⟩).message
           then ([⟨some "user", some "both-msg", some "both-content"⟩,
              (⟨some "assistant", none, some "only-content"⟩ : ChatMsg)].get ⟨i, hj⟩).message
           else ([⟨some "user", some "both-msg", some "both-content"⟩,
              (⟨some "assistant", none, some "only-content"⟩ : ChatMsg)].get ⟨i, hj⟩).content) :=
  chat_history_content "hi" rfl
    [⟨some "user", some "both-msg", some "both-content"⟩,
      ⟨some "assistant", none, some "only-content"⟩] demoVendor

end MedWell
